import Mathlib

/-
Shallow embedding of the biomedical-study-classifier repository
(src/animal_classifier.py, src/review_filter.py, src/utils.py).
Remote HTTP calls (OpenAlex, Crossref, NCBI id conversion, PubMed fetch)
enter the model as explicit inputs: each call site is represented by an
Except / Option valued argument, where Except.error models an exception
escaping the call and Option models the "no data" outcome.  Exceptions
raised inside a try block of the source are likewise modelled by an
Option String input consumed by the surrounding handler.  Everything
else is translated directly from the source.
-/

/-- A MeSH descriptor term as parsed by AnimalClassifier._pmid_to_mesh.
Qualifier sub-terms are parsed by the source but never read by any of
the three classifiers, so they are omitted from the model. -/
structure MeshTerm where
  ui : String
  name : String
  majorTopic : Bool
deriving DecidableEq

/-- Evidence label built throughout animal_classifier.py as the string
name followed by the code in parentheses. -/
def meshLabel (t : MeshTerm) : String :=
  t.name ++ " (" ++ t.ui ++ ")"

/-- Key set of animal_mesh_uis in _classify_animals_used (the dict label
values are never read, only key membership is tested). -/
def animalMeshUIs : List String :=
  ["D000818", "D023421", "D004195", "D032761"]

/-- human_mesh_ui in _classify_animals_used. -/
def humanMeshUI : String := "D006801"

/-- Key set of in_vitro_uis in _classify_animals_used. -/
def inVitroUIsQ2 : List String :=
  ["D066298", "D002478", "D018929"]

/-- The term-scanning loop of _classify_animals_used: buckets each term
into found_animal_terms, found_human_terms, found_in_vitro_terms in
term order, using the same if / elif / elif chain as the source. -/
def scanQ2 : List MeshTerm → List String × List String × List String
  | [] => ([], [], [])
  | t :: ts =>
    let r := scanQ2 ts
    if t.ui ∈ animalMeshUIs then (meshLabel t :: r.1, r.2.1, r.2.2)
    else if t.ui = humanMeshUI then (r.1, meshLabel t :: r.2.1, r.2.2)
    else if t.ui ∈ inVitroUIsQ2 then (r.1, r.2.1, meshLabel t :: r.2.2)
    else r

/-- The classification steps of _classify_animals_used up to but not
including the final in vitro confidence downgrade; split out so that
the downgrade step can be stated to alter only the confidence.
Returns (animals_used, confidence, evidence_terms). -/
def classify_animals_used_no_downgrade (includeAnimals includeHumans : Bool)
    (terms : List MeshTerm) : Bool × String × List String :=
  let s := scanQ2 terms
  if includeAnimals && !s.1.isEmpty then
    (true, if s.1.length > 1 then "high" else "medium", s.1)
  else if includeHumans && !s.2.1.isEmpty && s.1.isEmpty then
    (true, "medium", s.2.1)
  else
    (false, "low", [])

/-- AnimalClassifier._classify_animals_used: the steps above followed by
the downgrade "if found_in_vitro_terms and confidence in [high, medium]:
confidence = low". -/
def classify_animals_used (includeAnimals includeHumans : Bool)
    (terms : List MeshTerm) : Bool × String × List String :=
  let s := scanQ2 terms
  let r := classify_animals_used_no_downgrade includeAnimals includeHumans terms
  (r.1,
   if !s.2.2.isEmpty && (r.2.1 == "high" || r.2.1 == "medium") then "low" else r.2.1,
   r.2.2)

/-- Key set of in_vitro_uis in _classify_in_vivo. -/
def inVitroUIsQ3 : List String :=
  ["D066298", "D002478", "D018929", "D046508", "D019149"]

/-- Key set of in_vivo_supporting_uis in _classify_in_vivo. -/
def inVivoSupportingUIs : List String :=
  ["D032761", "D023421", "D004195", "D001522"]

/-- The term-scanning loop of _classify_in_vivo: buckets each term into
found_in_vitro_terms and found_in_vivo_terms in term order, same
if / elif chain as the source. -/
def scanQ3 : List MeshTerm → List String × List String
  | [] => ([], [])
  | t :: ts =>
    let r := scanQ3 ts
    if t.ui ∈ inVitroUIsQ3 then (meshLabel t :: r.1, r.2)
    else if t.ui ∈ inVivoSupportingUIs then (r.1, meshLabel t :: r.2)
    else r

/-- AnimalClassifier._classify_in_vivo.  Returns
(in_vivo, confidence, evidence_terms). -/
def classify_in_vivo (terms : List MeshTerm) (animalsUsed : Bool)
    (animalsConfidence : String) : Bool × String × List String :=
  if !animalsUsed then
    (false, "NOT FOUND", ["No animals/subjects detected"])
  else
    let s := scanQ3 terms
    if !s.1.isEmpty && s.2.isEmpty then (false, "medium", s.1)
    else if !s.2.isEmpty then (true, "high", s.2)
    else
      (true, if animalsConfidence == "low" then "low" else "medium",
       ["Assumption: animals present without strong in vitro indicators"])

/-- species_mapping in _extract_species, as a code to name lookup. -/
def speciesMapping (ui : String) : Option String :=
  if ui = "D051379" then some "Mice"
  else if ui = "D051381" then some "Rats"
  else if ui = "D011817" then some "Rabbits"
  else none

/-- The accumulation loop of _extract_species, with the found_species
and evidence_terms accumulators made explicit. -/
def extract_species_aux : List MeshTerm → List String → List String →
    List String × List String
  | [], found, ev => (found, ev)
  | t :: ts, found, ev =>
    match speciesMapping t.ui with
    | none => extract_species_aux ts found ev
    | some nm =>
      if nm ∈ found then extract_species_aux ts found ev
      else extract_species_aux ts (found ++ [nm]) (ev ++ [nm ++ " (" ++ t.ui ++ ")"])

/-- AnimalClassifier._extract_species.  Returns
(found_species, evidence_terms). -/
def extract_species (terms : List MeshTerm) : List String × List String :=
  extract_species_aux terms [] []

/-- First-seen order deduplication with an explicit seen accumulator;
firstSeen xs [] models the python idiom list(dict.fromkeys(xs)) used in
process_all_dois_row_by_row, and is also the comparison definition for
the first-seen-order statement about _extract_species. -/
def firstSeen : List String → List String → List String
  | [], _ => []
  | x :: xs, seen =>
    if x ∈ seen then firstSeen xs seen else x :: firstSeen xs (x :: seen)

/-- EXCLUDED_TYPES of ReviewFilter (set literal; only membership is ever
used, so a list of the members is an adequate model). -/
def EXCLUDED_TYPES : List String :=
  ["editorial", "erratum", "retraction", "paratext", "commentary", "letter"]

/-- EXCLUDED_CROSSREF_TYPES of ReviewFilter. -/
def EXCLUDED_CROSSREF_TYPES : List String :=
  ["book-chapter", "proceedings-article", "reference-entry", "component"]

/-- EXCLUDED_TYPES_COMPLETE of ReviewFilter: the union of the two sets
above together with the two synthetic review markers. -/
def EXCLUDED_TYPES_COMPLETE : List String :=
  EXCLUDED_TYPES ++ EXCLUDED_CROSSREF_TYPES ++ ["openalex_review", "crossref_review"]

/-- An OpenAlex work response as read by _classify_openalex: the title,
the type field and the type_crossref field. -/
structure OpenAlexWork where
  title : String
  type : String
  typeCrossref : String
deriving DecidableEq

/-- A Crossref work message as read by _classify_crossref: the title
list and the type field.  The joined title string built in the source
is used only for logging and for the returned title. -/
structure CrossrefWork where
  titles : List String
  type : String
deriving DecidableEq

/-- Python str.lower modelled over the underlying character list; the
builtin String.toLower is extensionally the same ASCII lowering but is
not kernel-reducible, which concrete evaluations here need. -/
def lowerStr (s : String) : String := ⟨s.data.map Char.toLower⟩

/-- ReviewFilter._classify_openalex.  The compiled review_regex is
modelled by the predicate rm on titles (true when the regex matches);
the python truthiness test on title is the nonemptiness test. -/
def classify_openalex (rm : String → Bool) (w : OpenAlexWork) : String :=
  let workType := lowerStr w.type
  let crossrefType := lowerStr w.typeCrossref
  if workType ∈ EXCLUDED_TYPES then workType
  else if crossrefType ∈ EXCLUDED_CROSSREF_TYPES then crossrefType
  else if w.title ≠ "" ∧ rm w.title = true then "openalex_review"
  else if workType ≠ "" then workType
  else "NOT FOUND"

/-- ReviewFilter._classify_crossref.  The title-pattern loop iterates
over the raw title list exactly as the source does. -/
def classify_crossref (rm : String → Bool) (v : CrossrefWork) : String :=
  let workType := lowerStr v.type
  if workType ∈ EXCLUDED_CROSSREF_TYPES ∨ workType ∈ EXCLUDED_TYPES then workType
  else if v.titles.any (fun t => rm t) then "crossref_review"
  else if workType ≠ "" then workType
  else "Not found"

/-- ReviewFilter._check_openalex.  The argument models the guarded call:
Except.error is an exception inside the try block, Except.ok none is the
falsy no-data response; both are handled to ("NOT FOUND", "none", ""). -/
def check_openalex (rm : String → Bool)
    (resp : Except String (Option OpenAlexWork)) : String × String × String :=
  match resp with
  | Except.error _ => ("NOT FOUND", "none", "")
  | Except.ok none => ("NOT FOUND", "none", "")
  | Except.ok (some d) => (classify_openalex rm d, "openalex", d.title)

/-- ReviewFilter._check_crossref.  Except.ok none also covers a response
without a message key.  The returned title is the space-joined title
list. -/
def check_crossref (rm : String → Bool)
    (resp : Except String (Option CrossrefWork)) : String × String × String :=
  match resp with
  | Except.error _ => ("NOT FOUND", "none", "")
  | Except.ok none => ("NOT FOUND", "none", "")
  | Except.ok (some v) =>
    (classify_crossref rm v, "crossref", String.intercalate " " v.titles)

/-- ReviewFilter.classify_paper_type: OpenAlex first, Crossref as the
fallback, ("NOT FOUND", "none", "") when both yield nothing. -/
def classify_paper_type (rm : String → Bool)
    (oa : Except String (Option OpenAlexWork))
    (cr : Except String (Option CrossrefWork)) : String × String × String :=
  let r1 := check_openalex rm oa
  if r1.2.1 ≠ "none" then r1
  else
    let r2 := check_crossref rm cr
    if r2.2.1 ≠ "none" then r2
    else ("NOT FOUND", "none", "")

/-- Metadata extracted by _pmid_to_mesh alongside the term list. -/
structure MeshMeta where
  title : String
  abstract : String
  mesh_count : Nat
deriving DecidableEq

/-- One result dict of classify_animal_studies.  Fields missing from a
given dict shape in the source take the defaults that the .get calls of
the consumers supply (none, "", 0, []). -/
structure AnimalResult where
  doi : String
  pmid : Option String := none
  title : String := ""
  mesh_count : Nat := 0
  animals_used : Bool := false
  animals_confidence : String := "NOT FOUND"
  animal_evidence : List String := []
  in_vivo : Bool := false
  in_vivo_confidence : String := "NOT FOUND"
  in_vivo_evidence : List String := []
  species : List String := []
  species_evidence : List String := []
  mesh_terms_debug : List String := []
  error : Option String := none
deriving DecidableEq

/-- The per-DOI body of AnimalClassifier.classify_animal_studies after
DOI normalization: cleanDoi is the value of normalize_doi (empty string
for an invalid DOI), pmid the outcome of _doi_to_pmid, meshTerms and
meta the outcome of _pmid_to_mesh (meta none models the empty metadata
dict of the failure path). -/
def classify_animal_studies_single (includeAnimals includeHumans : Bool)
    (doi cleanDoi : String) (pmid : Option String)
    (meshTerms : List MeshTerm) (meta : Option MeshMeta) : AnimalResult :=
  if cleanDoi = "" then
    { doi := doi, error := some "Invalid DOI format" }
  else
    match pmid with
    | none => { doi := cleanDoi, error := some "PMID not found" }
    | some p =>
      if meshTerms.isEmpty then
        { doi := cleanDoi, pmid := some p, error := some "No MeSH terms found" }
      else
        let a := classify_animals_used includeAnimals includeHumans meshTerms
        let iv := classify_in_vivo meshTerms a.1 a.2.1
        let sp := extract_species meshTerms
        { doi := cleanDoi
          pmid := some p
          title := (match meta with | some m => m.title | none => "")
          mesh_count := (match meta with | some m => m.mesh_count | none => 0)
          animals_used := a.1
          animals_confidence := a.2.1
          animal_evidence := a.2.2
          in_vivo := iv.1
          in_vivo_confidence := iv.2.1
          in_vivo_evidence := iv.2.2
          species := sp.1
          species_evidence := sp.2
          mesh_terms_debug := (meshTerms.take 3).map meshLabel
          error := none }

/-- The resolved external inputs of one classify_animal_studies loop
iteration; exc models an exception escaping the iteration body into the
per-DOI except handler of classify_animal_studies. -/
structure AnimalOutcome where
  cleanDoi : String
  pmid : Option String
  meshTerms : List MeshTerm
  meta : Option MeshMeta
  exc : Option String
deriving DecidableEq

/-- AnimalClassifier.classify_single_paper, as used by the orchestrator
with include_animals and include_humans fixed by the caller.  On an
exception the per-DOI handler of classify_animal_studies yields the
error dict with default verdicts. -/
def classify_single_paper (includeAnimals includeHumans : Bool)
    (doi : String) (a : AnimalOutcome) : AnimalResult :=
  match a.exc with
  | some e => { doi := doi, error := some e }
  | none =>
    classify_animal_studies_single includeAnimals includeHumans
      doi a.cleanDoi a.pmid a.meshTerms a.meta

/-- One output record of process_doi_row_by_row. -/
structure PaperRecord where
  doi : String
  title : String
  paper_type : String
  classification_source : String
  pmid : Option String
  mesh_count : Nat
  animals_used : Bool
  animals_confidence : String
  animal_evidence : List String
  in_vivo : Bool
  in_vivo_confidence : String
  in_vivo_evidence : List String
  species : List String
  species_evidence : List String
  mesh_terms_debug : List String
  animal_classification_error : Option String
  processing_error : Option String
deriving DecidableEq

/-- The resolved external inputs of process_doi_row_by_row for one DOI:
the two metadata source calls, an exception escaping the inner animal
classification try block, the animal classification inputs, and an
exception escaping the whole body into the outer except handler. -/
structure DoiOutcome where
  openalexResp : Except String (Option OpenAlexWork)
  crossrefResp : Except String (Option CrossrefWork)
  animalStageExc : Option String
  animalOutcome : AnimalOutcome
  bodyExc : Option String

/-- process_doi_row_by_row of utils.py.  The record starts from the
default-initialized dict, is filled with animal classification data
only when the paper type is not in EXCLUDED_TYPES_COMPLETE, and any
exception escaping the body is converted to the error record of the
outer except handler. -/
def process_doi_row_by_row (rm : String → Bool) (doi : String)
    (o : DoiOutcome) : PaperRecord :=
  match o.bodyExc with
  | some e =>
    { doi := doi, title := "", paper_type := "NOT FOUND"
      classification_source := "error", pmid := none, mesh_count := 0
      animals_used := false, animals_confidence := "NOT FOUND"
      animal_evidence := [], in_vivo := false
      in_vivo_confidence := "NOT FOUND", in_vivo_evidence := []
      species := [], species_evidence := [], mesh_terms_debug := []
      animal_classification_error := none, processing_error := some e }
  | none =>
    let r := classify_paper_type rm o.openalexResp o.crossrefResp
    let base : PaperRecord :=
      { doi := doi, title := r.2.2, paper_type := r.1
        classification_source := r.2.1, pmid := none, mesh_count := 0
        animals_used := false, animals_confidence := "NOT FOUND"
        animal_evidence := [], in_vivo := false
        in_vivo_confidence := "NOT FOUND", in_vivo_evidence := []
        species := [], species_evidence := [], mesh_terms_debug := []
        animal_classification_error := none, processing_error := none }
    if base.paper_type ∈ EXCLUDED_TYPES_COMPLETE then base
    else
      match o.animalStageExc with
      | some e => { base with animal_classification_error := some e }
      | none =>
        let ar := classify_single_paper true false doi o.animalOutcome
        { base with
          pmid := ar.pmid
          mesh_count := ar.mesh_count
          animals_used := ar.animals_used
          animals_confidence := ar.animals_confidence
          animal_evidence := ar.animal_evidence
          in_vivo := ar.in_vivo
          in_vivo_confidence := ar.in_vivo_confidence
          in_vivo_evidence := ar.in_vivo_evidence
          species := ar.species
          species_evidence := ar.species_evidence
          mesh_terms_debug := ar.mesh_terms_debug
          animal_classification_error := ar.error }

/-- The partition loop of process_all_dois_row_by_row over the already
deduplicated DOI list, routing each record on membership of its
paper_type in EXCLUDED_TYPES_COMPLETE. -/
def partitionLoop (rm : String → Bool) (oracle : String → DoiOutcome) :
    List String → List PaperRecord × List PaperRecord
  | [] => ([], [])
  | doi :: rest =>
    let result := process_doi_row_by_row rm doi (oracle doi)
    let p := partitionLoop rm oracle rest
    if result.paper_type ∈ EXCLUDED_TYPES_COMPLETE then (p.1, result :: p.2)
    else (result :: p.1, p.2)

/-- process_all_dois_row_by_row of utils.py: deduplicate the input DOI
list keeping first occurrences, process each unique DOI, partition into
(included_results, excluded_results).  The oracle gives the resolved
external inputs per DOI. -/
def process_all_dois_row_by_row (rm : String → Bool)
    (oracle : String → DoiOutcome) (dois : List String) :
    List PaperRecord × List PaperRecord :=
  partitionLoop rm oracle (firstSeen dois [])

/-- A review-title predicate matching no title, a valid behavior of the
compiled review_regex on title sets that contain no review phrase. -/
def rmNone : String → Bool := fun _ => false

/-- Animal-stage inputs for a DOI whose normalization fails. -/
def animalOutcome0 : AnimalOutcome :=
  { cleanDoi := "", pmid := none, meshTerms := [], meta := none, exc := none }

/-- External inputs where both metadata sources return no data. -/
def bothFailOutcome : DoiOutcome :=
  { openalexResp := Except.ok none, crossrefResp := Except.ok none
    animalStageExc := none, animalOutcome := animalOutcome0, bodyExc := none }

/-- External inputs where OpenAlex reports the work type editorial. -/
def editorialOutcome : DoiOutcome :=
  { openalexResp := Except.ok (some { title := "Editorial thoughts", type := "editorial", typeCrossref := "" })
    crossrefResp := Except.ok none
    animalStageExc := none, animalOutcome := animalOutcome0, bodyExc := none }

/-- A term list holding one animal-indicator term and one
in-vitro-indicator term. -/
def c4terms : List MeshTerm :=
  [{ ui := "D000818", name := "Animals", majorTopic := false },
   { ui := "D002478", name := "Cells, Cultured", majorTopic := false }]

/-- An OpenAlex work with an ordinary article type and no review title. -/
def oaw0 : OpenAlexWork :=
  { title := "Some Paper", type := "Article", typeCrossref := "journal-article" }

/-- A Crossref work with an empty declared type. -/
def crw0 : CrossrefWork := { titles := ["Some Paper"], type := "" }

lemma mem_vitroQ2_resolve (s : String) (h : s ∈ inVitroUIsQ2) :
    s ∉ animalMeshUIs ∧ s ≠ humanMeshUI := by
  simp only [inVitroUIsQ2, List.mem_cons, List.not_mem_nil, or_false] at h
  rcases h with rfl | rfl | rfl <;> exact ⟨by decide, by decide⟩

lemma scanQ2_vitro_ne_nil : ∀ ts : List MeshTerm,
    (∃ t ∈ ts, t.ui ∈ inVitroUIsQ2) → (scanQ2 ts).2.2 ≠ [] := by
  intro ts
  induction ts with
  | nil => rintro ⟨t, ht, -⟩; exact absurd ht (List.not_mem_nil t)
  | cons t ts ih =>
    rintro ⟨u, hu, huv⟩
    rcases List.mem_cons.mp hu with rfl | hu2
    · obtain ⟨hna, hnh⟩ := mem_vitroQ2_resolve u.ui huv
      simp [scanQ2, hna, hnh, huv]
    · have h2 := ih ⟨u, hu2, huv⟩
      by_cases h1 : t.ui ∈ animalMeshUIs
      · simpa [scanQ2, h1] using h2
      · by_cases hh : t.ui = humanMeshUI
        · simpa [scanQ2, h1, hh] using h2
        · by_cases hv : t.ui ∈ inVitroUIsQ2
          · simp [scanQ2, h1, hh, hv]
          · simpa [scanQ2, h1, hh, hv] using h2

lemma mem_vitroQ3_not_vivo (s : String) (h : s ∈ inVitroUIsQ3) :
    s ∉ inVivoSupportingUIs := by
  simp only [inVitroUIsQ3, List.mem_cons, List.not_mem_nil, or_false] at h
  rcases h with rfl | rfl | rfl | rfl | rfl <;> decide

lemma scanQ3_eq : ∀ ts : List MeshTerm,
    scanQ3 ts =
      ((ts.filter fun t => decide (t.ui ∈ inVitroUIsQ3)).map meshLabel,
       (ts.filter fun t => decide (t.ui ∈ inVivoSupportingUIs)).map meshLabel) := by
  intro ts
  induction ts with
  | nil => rfl
  | cons t ts ih =>
    by_cases h1 : t.ui ∈ inVitroUIsQ3
    · have h2 : t.ui ∉ inVivoSupportingUIs := mem_vitroQ3_not_vivo _ h1
      simp [scanQ3, List.filter_cons, h1, h2, ih]
    · by_cases h2 : t.ui ∈ inVivoSupportingUIs
      · simp [scanQ3, List.filter_cons, h1, h2, ih]
      · simp [scanQ3, List.filter_cons, h1, h2, ih]

lemma firstSeen_sublist : ∀ xs seen : List String, (firstSeen xs seen).Sublist xs := by
  intro xs
  induction xs with
  | nil => intro seen; simp [firstSeen]
  | cons x xs ih =>
    intro seen
    by_cases h : x ∈ seen
    · simp only [firstSeen, if_pos h]
      exact (ih seen).cons x
    · simp only [firstSeen, if_neg h]
      exact (ih (x :: seen)).cons₂ x

lemma firstSeen_mem : ∀ (xs seen : List String) (y : String),
    y ∈ firstSeen xs seen ↔ y ∈ xs ∧ y ∉ seen := by
  intro xs
  induction xs with
  | nil => intro seen y; simp [firstSeen]
  | cons x xs ih =>
    intro seen y
    by_cases h : x ∈ seen
    · rw [firstSeen, if_pos h, ih]
      constructor
      · rintro ⟨hy, hs⟩; exact ⟨List.mem_cons_of_mem _ hy, hs⟩
      · rintro ⟨hy, hs⟩
        rcases List.mem_cons.mp hy with rfl | hy2
        · exact absurd h hs
        · exact ⟨hy2, hs⟩
    · rw [firstSeen, if_neg h]
      constructor
      · intro hy
        rcases List.mem_cons.mp hy with rfl | hy2
        · exact ⟨List.mem_cons_self _ _, h⟩
        · have h3 := (ih (x :: seen) y).mp hy2
          exact ⟨List.mem_cons_of_mem _ h3.1,
                 fun hs => h3.2 (List.mem_cons_of_mem _ hs)⟩
      · rintro ⟨hy, hs⟩
        rcases List.mem_cons.mp hy with rfl | hy2
        · exact List.mem_cons_self _ _
        · by_cases hyx : y = x
          · subst hyx; exact List.mem_cons_self _ _
          · refine List.mem_cons_of_mem _ ((ih (x :: seen) y).mpr ⟨hy2, ?_⟩)
            simp [List.mem_cons, hyx, hs]

lemma firstSeen_nodup : ∀ xs seen : List String, (firstSeen xs seen).Nodup := by
  intro xs
  induction xs with
  | nil => intro seen; simp [firstSeen]
  | cons x xs ih =>
    intro seen
    by_cases h : x ∈ seen
    · rw [firstSeen, if_pos h]; exact ih seen
    · rw [firstSeen, if_neg h]
      refine List.nodup_cons.mpr ⟨?_, ih _⟩
      intro hx
      exact ((firstSeen_mem xs (x :: seen) x).mp hx).2 (List.mem_cons_self _ _)

lemma firstSeen_congr : ∀ xs seen seen2 : List String,
    (∀ y, y ∈ seen ↔ y ∈ seen2) → firstSeen xs seen = firstSeen xs seen2 := by
  intro xs
  induction xs with
  | nil => intros; rfl
  | cons x xs ih =>
    intro seen seen2 hss
    by_cases h : x ∈ seen
    · rw [firstSeen, if_pos h, firstSeen, if_pos ((hss x).mp h)]
      exact ih _ _ hss
    · rw [firstSeen, if_neg h, firstSeen, if_neg (fun hx => h ((hss x).mpr hx))]
      congr 1
      apply ih
      intro y
      simp [List.mem_cons, hss y]

lemma extract_species_aux_fst : ∀ (ts : List MeshTerm) (found ev : List String),
    (extract_species_aux ts found ev).1 =
      found ++ firstSeen (ts.filterMap fun t => speciesMapping t.ui) found := by
  intro ts
  induction ts with
  | nil => intro found ev; simp [extract_species_aux, firstSeen]
  | cons t ts ih =>
    intro found ev
    cases hm : speciesMapping t.ui with
    | none => simp [extract_species_aux, hm, List.filterMap_cons, ih]
    | some nm =>
      by_cases hf : nm ∈ found
      · simp [extract_species_aux, hm, hf, List.filterMap_cons, firstSeen, ih]
      · have hcongr := firstSeen_congr (ts.filterMap fun u => speciesMapping u.ui)
          (found ++ [nm]) (nm :: found) (by intro y; simp [or_comm])
        simp [extract_species_aux, hm, hf, List.filterMap_cons, firstSeen, ih,
              hcongr, List.append_assoc]

lemma extract_species_aux_forall₂ : ∀ (ts : List MeshTerm) (found ev : List String),
    List.Forall₂
      (fun nm e => ∃ c, speciesMapping c = some nm ∧ e = nm ++ " (" ++ c ++ ")")
      found ev →
    List.Forall₂
      (fun nm e => ∃ c, speciesMapping c = some nm ∧ e = nm ++ " (" ++ c ++ ")")
      (extract_species_aux ts found ev).1 (extract_species_aux ts found ev).2 := by
  intro ts
  induction ts with
  | nil => intro found ev h; simpa [extract_species_aux] using h
  | cons t ts ih =>
    intro found ev h
    cases hm : speciesMapping t.ui with
    | none => simpa [extract_species_aux, hm] using ih found ev h
    | some nm =>
      by_cases hf : nm ∈ found
      · simpa [extract_species_aux, hm, hf] using ih found ev h
      · have hp : ∃ c, speciesMapping c = some nm ∧
            nm ++ " (" ++ t.ui ++ ")" = nm ++ " (" ++ c ++ ")" := ⟨t.ui, hm, rfl⟩
        have h2 := ih (found ++ [nm]) (ev ++ [nm ++ " (" ++ t.ui ++ ")"])
          (List.rel_append h (List.forall₂_cons.mpr ⟨hp, List.Forall₂.nil⟩))
        simpa [extract_species_aux, hm, hf] using h2

lemma process_doi_doi (rm : String → Bool) (d : String) (o : DoiOutcome) :
    (process_doi_row_by_row rm d o).doi = d := by
  rcases o with ⟨oa, cr, ax, an, be⟩
  cases be with
  | some e => rfl
  | none =>
    simp only [process_doi_row_by_row]
    split
    · rfl
    · cases ax <;> rfl

lemma process_doi_fields (rm : String → Bool) (d : String) (o : DoiOutcome)
    (hbe : o.bodyExc = none) :
    (process_doi_row_by_row rm d o).paper_type =
      (classify_paper_type rm o.openalexResp o.crossrefResp).1 ∧
    (process_doi_row_by_row rm d o).classification_source =
      (classify_paper_type rm o.openalexResp o.crossrefResp).2.1 := by
  rcases o with ⟨oa, cr, ax, an, be⟩
  subst hbe
  simp only [process_doi_row_by_row]
  split
  · exact ⟨rfl, rfl⟩
  · cases ax <;> exact ⟨rfl, rfl⟩

lemma excluded_record_defaults (rm : String → Bool) (d : String) (o : DoiOutcome)
    (h : (process_doi_row_by_row rm d o).paper_type ∈ EXCLUDED_TYPES_COMPLETE) :
    (process_doi_row_by_row rm d o).animals_used = false ∧
    (process_doi_row_by_row rm d o).animals_confidence = "NOT FOUND" ∧
    (process_doi_row_by_row rm d o).animal_evidence = [] ∧
    (process_doi_row_by_row rm d o).in_vivo = false ∧
    (process_doi_row_by_row rm d o).in_vivo_confidence = "NOT FOUND" ∧
    (process_doi_row_by_row rm d o).in_vivo_evidence = [] ∧
    (process_doi_row_by_row rm d o).species = [] ∧
    (process_doi_row_by_row rm d o).species_evidence = [] := by
  rcases o with ⟨oa, cr, ax, an, be⟩
  cases be with
  | some e => exact ⟨rfl, rfl, rfl, rfl, rfl, rfl, rfl, rfl⟩
  | none =>
    by_cases hc : (classify_paper_type rm oa cr).1 ∈ EXCLUDED_TYPES_COMPLETE
    · simp [process_doi_row_by_row, hc]
    · exfalso
      apply hc
      simp only [process_doi_row_by_row] at h
      rw [if_neg hc] at h
      cases ax with
      | some e => exact h
      | none => exact h

lemma partitionLoop_eq (rm : String → Bool) (oracle : String → DoiOutcome) :
    ∀ l : List String,
      partitionLoop rm oracle l =
        ((l.map fun d => process_doi_row_by_row rm d (oracle d)).filter
            (fun r => !(decide (r.paper_type ∈ EXCLUDED_TYPES_COMPLETE))),
         (l.map fun d => process_doi_row_by_row rm d (oracle d)).filter
            (fun r => decide (r.paper_type ∈ EXCLUDED_TYPES_COMPLETE))) := by
  intro l
  induction l with
  | nil => rfl
  | cons d l ih =>
    by_cases h : (process_doi_row_by_row rm d (oracle d)).paper_type ∈
        EXCLUDED_TYPES_COMPLETE
    · simp [partitionLoop, h, ih, List.filter_cons]
    · simp [partitionLoop, h, ih, List.filter_cons]

lemma length_filter_partition {α : Type} (p : α → Bool) :
    ∀ L : List α,
      (L.filter fun a => !(p a)).length + (L.filter p).length = L.length := by
  intro L
  induction L with
  | nil => rfl
  | cons a L ih =>
    cases h : p a <;> simp [List.filter_cons, h, ← ih] <;> omega

lemma filter_not_append_filter_perm {α : Type} (p : α → Bool) (L : List α) :
    ((L.filter fun a => !(p a)) ++ L.filter p).Perm L := by
  have h := List.filter_append_perm (fun a => !(p a)) L
  simpa [Bool.not_not] using h

/-- Claim C1: a record produced by the orchestrator is routed to the
excluded bucket iff its paper_type is in the Exclusion Set
EXCLUDED_TYPES_COMPLETE, and every excluded record carries the default
NOT FOUND animal and in-vivo verdicts with empty species, since
exclusion-set membership is the sole gate for the animal, in-vivo and
species classifiers in process_doi_row_by_row. -/
theorem claim_C1_partition_gate (rm : String → Bool)
    (oracle : String → DoiOutcome) (dois : List String) :
    (∀ r ∈ (process_all_dois_row_by_row rm oracle dois).2,
        r.paper_type ∈ EXCLUDED_TYPES_COMPLETE ∧
        r.animals_used = false ∧ r.animals_confidence = "NOT FOUND" ∧
        r.animal_evidence = [] ∧ r.in_vivo = false ∧
        r.in_vivo_confidence = "NOT FOUND" ∧ r.in_vivo_evidence = [] ∧
        r.species = [] ∧ r.species_evidence = []) ∧
    (∀ r ∈ (process_all_dois_row_by_row rm oracle dois).1,
        r.paper_type ∉ EXCLUDED_TYPES_COMPLETE) := by
  rw [process_all_dois_row_by_row, partitionLoop_eq]
  constructor
  · intro r hr
    rw [List.mem_filter] at hr
    obtain ⟨hmap, hmem⟩ := hr
    have hex : r.paper_type ∈ EXCLUDED_TYPES_COMPLETE := of_decide_eq_true hmem
    obtain ⟨d, hd, rfl⟩ := List.mem_map.mp hmap
    exact ⟨hex, excluded_record_defaults rm d (oracle d) hex⟩
  · intro r hr
    rw [List.mem_filter] at hr
    simpa using hr.2

/-- Claim C2: the orchestrator deduplicates the input DOI list keeping
first-seen order (the deduplicated list has no duplicates, is a
sublist of the input, and has the same members) and produces exactly
one output record per unique DOI, so that the included and excluded
counts add up to the unique-input count and the record DOIs are a
permutation of the unique DOIs. -/
theorem claim_C2_dedup_one_record (rm : String → Bool)
    (oracle : String → DoiOutcome) (dois : List String) :
    (process_all_dois_row_by_row rm oracle dois).1.length +
        (process_all_dois_row_by_row rm oracle dois).2.length =
      (firstSeen dois []).length ∧
    (firstSeen dois []).Nodup ∧
    (firstSeen dois []).Sublist dois ∧
    (∀ x, x ∈ firstSeen dois [] ↔ x ∈ dois) ∧
    ((((process_all_dois_row_by_row rm oracle dois).1 ++
          (process_all_dois_row_by_row rm oracle dois).2).map fun r => r.doi).Perm
      (firstSeen dois [])) := by
  refine ⟨?_, firstSeen_nodup _ _, firstSeen_sublist _ _, ?_, ?_⟩
  · rw [process_all_dois_row_by_row, partitionLoop_eq]
    simp only
    rw [length_filter_partition]
    simp
  · intro x
    rw [firstSeen_mem]
    simp
  · rw [process_all_dois_row_by_row, partitionLoop_eq]
    have hperm := filter_not_append_filter_perm
      (fun r : PaperRecord => decide (r.paper_type ∈ EXCLUDED_TYPES_COMPLETE))
      ((firstSeen dois []).map fun d => process_doi_row_by_row rm d (oracle d))
    have h2 := hperm.map (fun r => r.doi)
    have h3 : (((firstSeen dois []).map fun d =>
          process_doi_row_by_row rm d (oracle d)).map fun r => r.doi) =
        firstSeen dois [] := by
      rw [List.map_map]
      have h4 : ((fun r : PaperRecord => r.doi) ∘ fun d =>
          process_doi_row_by_row rm d (oracle d)) = id := by
        funext d
        simp [process_doi_doi]
      rw [h4, List.map_id]
    rw [h3] at h2
    exact h2

/-- Claim C4: whenever any in-vitro-indicator term is present the
animal-use confidence is forced to low (never high or medium), and the
downgrade changes only the confidence: verdict and evidence always
agree with the classifier without the downgrade step. -/
theorem claim_C4_in_vitro_downgrade (ia ih : Bool) (terms : List MeshTerm) :
    ((∃ t ∈ terms, t.ui ∈ inVitroUIsQ2) →
      (classify_animals_used ia ih terms).2.1 = "low") ∧
    (classify_animals_used ia ih terms).1 =
      (classify_animals_used_no_downgrade ia ih terms).1 ∧
    (classify_animals_used ia ih terms).2.2 =
      (classify_animals_used_no_downgrade ia ih terms).2.2 := by
  refine ⟨?_, rfl, rfl⟩
  intro hex
  have hne := scanQ2_vitro_ne_nil terms hex
  have hvne : ((scanQ2 terms).2.2).isEmpty = false := by
    cases hh : (scanQ2 terms).2.2 with
    | nil => exact absurd hh hne
    | cons a l => rfl
  have hconf : (classify_animals_used_no_downgrade ia ih terms).2.1 = "high" ∨
      (classify_animals_used_no_downgrade ia ih terms).2.1 = "medium" ∨
      (classify_animals_used_no_downgrade ia ih terms).2.1 = "low" := by
    by_cases h1 : (ia && !(scanQ2 terms).1.isEmpty) = true
    · by_cases h2 : (scanQ2 terms).1.length > 1
      · left; simp [classify_animals_used_no_downgrade, h1, h2]
      · right; left; simp [classify_animals_used_no_downgrade, h1, h2]
    · by_cases h3 : (ih && !(scanQ2 terms).2.1.isEmpty && (scanQ2 terms).1.isEmpty) = true
      · right; left; simp [classify_animals_used_no_downgrade, h1, h3]
      · right; right; simp [classify_animals_used_no_downgrade, h1, h3]
    
  rcases hconf with h | h | h <;> simp [classify_animals_used, hvne, h]

/-- Claim C4 witness: a concrete term list holding an animal-indicator
term and an in-vitro-indicator term yields confidence low. -/
theorem claim_C4_witness :
    (∃ t ∈ c4terms, t.ui ∈ inVitroUIsQ2) ∧
    (classify_animals_used true false c4terms).2.1 = "low" :=
  ⟨by decide, (claim_C4_in_vitro_downgrade true false c4terms).1 (by decide)⟩

/-- Claim C5: when the incoming animal-use verdict is false the in-vivo
classifier short-circuits to verdict false, confidence NOT FOUND, and
the single fixed evidence string, for every term list and every
incoming animal confidence. -/
theorem claim_C5_short_circuit (terms : List MeshTerm) (ac : String) :
    classify_in_vivo terms false ac =
      (false, "NOT FOUND", ["No animals/subjects detected"]) := rfl

/-- Claim C1 witness: with OpenAlex reporting the work type editorial, a
concrete record lands in the excluded bucket and carries the default
NOT FOUND verdicts. -/
theorem claim_C1_witness :
    (process_doi_row_by_row rmNone "10.1/a" editorialOutcome) ∈
      (process_all_dois_row_by_row rmNone (fun _ => editorialOutcome) ["10.1/a"]).2 ∧
    ((process_doi_row_by_row rmNone "10.1/a" editorialOutcome).paper_type ∈
        EXCLUDED_TYPES_COMPLETE ∧
      (process_doi_row_by_row rmNone "10.1/a" editorialOutcome).animals_used = false ∧
      (process_doi_row_by_row rmNone "10.1/a" editorialOutcome).animals_confidence
        = "NOT FOUND" ∧
      (process_doi_row_by_row rmNone "10.1/a" editorialOutcome).animal_evidence = [] ∧
      (process_doi_row_by_row rmNone "10.1/a" editorialOutcome).in_vivo = false ∧
      (process_doi_row_by_row rmNone "10.1/a" editorialOutcome).in_vivo_confidence
        = "NOT FOUND" ∧
      (process_doi_row_by_row rmNone "10.1/a" editorialOutcome).in_vivo_evidence = [] ∧
      (process_doi_row_by_row rmNone "10.1/a" editorialOutcome).species = [] ∧
      (process_doi_row_by_row rmNone "10.1/a" editorialOutcome).species_evidence = []) := by
  have hlist : (process_all_dois_row_by_row rmNone (fun _ => editorialOutcome) ["10.1/a"]).2 =
      [process_doi_row_by_row rmNone "10.1/a" editorialOutcome] := rfl
  have hmem : (process_doi_row_by_row rmNone "10.1/a" editorialOutcome) ∈
      (process_all_dois_row_by_row rmNone (fun _ => editorialOutcome) ["10.1/a"]).2 := by
    rw [hlist]
    exact List.mem_singleton_self _
  exact ⟨hmem,
    (claim_C1_partition_gate rmNone (fun _ => editorialOutcome) ["10.1/a"]).1 _ hmem⟩

/-- Claim C3 counterexample: with both metadata sources failing for a
concrete DOI, the excluded bucket is empty and the single produced
record (paper_type NOT FOUND, classification_source none) sits in the
included bucket, so the claim that the record is routed to excluded is
false. -/
theorem claim_C3_counterexample :
    (process_all_dois_row_by_row rmNone (fun _ => bothFailOutcome) ["10.1/x"]).2 = [] ∧
    ((process_all_dois_row_by_row rmNone (fun _ => bothFailOutcome) ["10.1/x"]).1.map
        fun r => (r.paper_type, r.classification_source)) = [("NOT FOUND", "none")] := by
  exact ⟨rfl, rfl⟩

/-- Claim C3 amended: when both metadata sources fail for a DOI the
record has paper_type NOT FOUND and classification_source none, and it
is routed to the included bucket by the partition rule, because
NOT FOUND is not a member of EXCLUDED_TYPES_COMPLETE. -/
theorem claim_C3_amended (rm : String → Bool) (doi : String) (o : DoiOutcome)
    (hoa : o.openalexResp = Except.ok none ∨ ∃ e, o.openalexResp = Except.error e)
    (hcr : o.crossrefResp = Except.ok none ∨ ∃ e, o.crossrefResp = Except.error e)
    (hbe : o.bodyExc = none) :
    (process_doi_row_by_row rm doi o).paper_type = "NOT FOUND" ∧
    (process_doi_row_by_row rm doi o).classification_source = "none" ∧
    (process_all_dois_row_by_row rm (fun _ => o) [doi]).2 = [] ∧
    (process_all_dois_row_by_row rm (fun _ => o) [doi]).1 =
      [process_doi_row_by_row rm doi o] := by
  have hcp : classify_paper_type rm o.openalexResp o.crossrefResp =
      ("NOT FOUND", "none", "") := by
    rcases hoa with h | ⟨e, h⟩ <;> rcases hcr with h2 | ⟨e2, h2⟩ <;>
      rw [h, h2] <;> rfl
  obtain ⟨hp, hs⟩ := process_doi_fields rm doi o hbe
  rw [hcp] at hp hs
  have hp2 : (process_doi_row_by_row rm doi o).paper_type = "NOT FOUND" := hp
  have hs2 : (process_doi_row_by_row rm doi o).classification_source = "none" := hs
  have hnotex : (process_doi_row_by_row rm doi o).paper_type ∉
      EXCLUDED_TYPES_COMPLETE := by
    rw [hp2]; decide
  have hroute : process_all_dois_row_by_row rm (fun _ => o) [doi] =
      ([process_doi_row_by_row rm doi o], []) := by
    simp [process_all_dois_row_by_row, firstSeen, partitionLoop, hnotex]
  exact ⟨hp2, hs2, by rw [hroute], by rw [hroute]⟩

/-- Claim C3 amended witness: both sources fail for a concrete DOI and
the record lands in the included bucket with NOT FOUND and none. -/
theorem claim_C3_amended_witness :
    (bothFailOutcome.openalexResp = Except.ok none ∨
      ∃ e, bothFailOutcome.openalexResp = Except.error e) ∧
    (bothFailOutcome.crossrefResp = Except.ok none ∨
      ∃ e, bothFailOutcome.crossrefResp = Except.error e) ∧
    bothFailOutcome.bodyExc = none ∧
    ((process_doi_row_by_row rmNone "10.1/y" bothFailOutcome).paper_type = "NOT FOUND" ∧
     (process_doi_row_by_row rmNone "10.1/y" bothFailOutcome).classification_source
       = "none" ∧
     (process_all_dois_row_by_row rmNone (fun _ => bothFailOutcome) ["10.1/y"]).2 = [] ∧
     (process_all_dois_row_by_row rmNone (fun _ => bothFailOutcome) ["10.1/y"]).1 =
       [process_doi_row_by_row rmNone "10.1/y" bothFailOutcome]) :=
  ⟨Or.inl rfl, Or.inl rfl, rfl,
   claim_C3_amended rmNone "10.1/y" bothFailOutcome (Or.inl rfl) (Or.inl rfl) rfl⟩

/-- Claim C6: with animal verdict true the in-vivo classifier follows
exactly the three-step decision order of the source, with the matched
in-vitro or in-vivo labels (in term order) as evidence, or the fixed
assumption string with confidence low exactly when the incoming animal
confidence is low. -/
theorem claim_C6_decision_order (terms : List MeshTerm) (ac : String) :
    classify_in_vivo terms true ac =
      (if (terms.filter fun t => decide (t.ui ∈ inVitroUIsQ3)) ≠ [] ∧
          (terms.filter fun t => decide (t.ui ∈ inVivoSupportingUIs)) = [] then
        (false, "medium",
         (terms.filter fun t => decide (t.ui ∈ inVitroUIsQ3)).map meshLabel)
      else if (terms.filter fun t => decide (t.ui ∈ inVivoSupportingUIs)) ≠ [] then
        (true, "high",
         (terms.filter fun t => decide (t.ui ∈ inVivoSupportingUIs)).map meshLabel)
      else
        (true, if ac = "low" then "low" else "medium",
         ["Assumption: animals present without strong in vitro indicators"])) := by
  rw [classify_in_vivo, scanQ3_eq]
  by_cases h1 : (terms.filter fun t => decide (t.ui ∈ inVitroUIsQ3)) = [] <;>
    by_cases h2 : (terms.filter fun t => decide (t.ui ∈ inVivoSupportingUIs)) = [] <;>
    by_cases hac : ac = "low" <;>
    simp [h1, h2, hac, List.isEmpty_iff, List.map_eq_nil_iff]

/-- Claim C7 counterexample: for the fallback Crossref source with an
empty declared work-type and no review title, the resolver returns the
string Not found (mixed case), not the string NOT FOUND the claim
states; shown both for the per-source classifier and through
classify_paper_type when OpenAlex fails. -/
theorem claim_C7_counterexample :
    classify_crossref rmNone crw0 = "Not found" ∧
    classify_paper_type rmNone (Except.error "transport failure")
        (Except.ok (some crw0)) = ("Not found", "crossref", "Some Paper") ∧
    "Not found" ≠ "NOT FOUND" := by
  exact ⟨rfl, rfl, by decide⟩

/-- Claim C7 amended: when the lowercased declared work-type matches no
configured exclusion set and the title matches no review pattern, each
source classifier returns the lowercased declared work-type, or, when
that is empty, the string NOT FOUND for the OpenAlex source and the
string Not found for the Crossref source. -/
theorem claim_C7_amended (rm : String → Bool) (w : OpenAlexWork) (v : CrossrefWork) :
    (lowerStr w.type ∉ EXCLUDED_TYPES →
     lowerStr w.typeCrossref ∉ EXCLUDED_CROSSREF_TYPES →
     (w.title = "" ∨ rm w.title = false) →
     classify_openalex rm w =
       (if lowerStr w.type = "" then "NOT FOUND" else lowerStr w.type)) ∧
    (lowerStr v.type ∉ EXCLUDED_CROSSREF_TYPES →
     lowerStr v.type ∉ EXCLUDED_TYPES →
     (∀ t ∈ v.titles, rm t = false) →
     classify_crossref rm v =
       (if lowerStr v.type = "" then "Not found" else lowerStr v.type)) := by
  constructor
  · intro h1 h2 h3
    have h3b : ¬(w.title ≠ "" ∧ rm w.title = true) := by
      rcases h3 with h | h
      · intro hx; exact hx.1 h
      · intro hx; rw [h] at hx; exact Bool.false_ne_true hx.2
    simp only [classify_openalex]
    rw [if_neg h1, if_neg h2, if_neg h3b]
    by_cases h4 : lowerStr w.type = "" <;> simp [h4]
  · intro h1 h2 h3
    have hor : ¬(lowerStr v.type ∈ EXCLUDED_CROSSREF_TYPES ∨
        lowerStr v.type ∈ EXCLUDED_TYPES) := by
      rintro (h | h)
      · exact h1 h
      · exact h2 h
    have hany : (v.titles.any fun t => rm t) = false := by
      rw [List.any_eq_false]
      intro t ht
      simp [h3 t ht]
    simp only [classify_crossref]
    rw [if_neg hor]
    rw [hany]
    by_cases h4 : lowerStr v.type = "" <;> simp [h4]

/-- Claim C7 amended witness: concrete OpenAlex and Crossref works with
non-excluded types and non-review titles. -/
theorem claim_C7_witness :
    (lowerStr oaw0.type ∉ EXCLUDED_TYPES) ∧
    (lowerStr oaw0.typeCrossref ∉ EXCLUDED_CROSSREF_TYPES) ∧
    (lowerStr crw0.type ∉ EXCLUDED_CROSSREF_TYPES) ∧
    classify_openalex rmNone oaw0 =
      (if lowerStr oaw0.type = "" then "NOT FOUND" else lowerStr oaw0.type) ∧
    classify_crossref rmNone crw0 =
      (if lowerStr crw0.type = "" then "Not found" else lowerStr crw0.type) :=
  ⟨by decide, by decide, by decide,
   (claim_C7_amended rmNone oaw0 crw0).1 (by decide) (by decide) (Or.inr rfl),
   (claim_C7_amended rmNone oaw0 crw0).2 (by decide) (by decide)
     (fun t _ => rfl)⟩

/-- Claim C8: the paper-type resolver never raises: a failing source is
treated exactly like a source returning no data (falling through to the
fallback), both failing yields the (NOT FOUND, none) result, and an
exception escaping any stage of per-DOI processing is converted into a
record with paper_type NOT FOUND, classification_source error, default
verdicts and the error field set, so the run can continue with the
next DOI. -/
theorem claim_C8_error_containment :
    (∀ (rm : String → Bool) (e : String) (cr : Except String (Option CrossrefWork)),
        classify_paper_type rm (Except.error e) cr =
          classify_paper_type rm (Except.ok none) cr) ∧
    (∀ (rm : String → Bool) (oa : Except String (Option OpenAlexWork)) (e : String),
        classify_paper_type rm oa (Except.error e) =
          classify_paper_type rm oa (Except.ok none)) ∧
    (∀ rm : String → Bool,
        classify_paper_type rm (Except.ok none) (Except.ok none) =
          ("NOT FOUND", "none", "")) ∧
    (∀ (rm : String → Bool) (doi : String)
        (oa : Except String (Option OpenAlexWork))
        (cr : Except String (Option CrossrefWork))
        (ax : Option String) (an : AnimalOutcome) (e : String),
        process_doi_row_by_row rm doi
            { openalexResp := oa, crossrefResp := cr, animalStageExc := ax
              animalOutcome := an, bodyExc := some e } =
          { doi := doi, title := "", paper_type := "NOT FOUND"
            classification_source := "error", pmid := none, mesh_count := 0
            animals_used := false, animals_confidence := "NOT FOUND"
            animal_evidence := [], in_vivo := false
            in_vivo_confidence := "NOT FOUND", in_vivo_evidence := []
            species := [], species_evidence := [], mesh_terms_debug := []
            animal_classification_error := none, processing_error := some e }) := by
  refine ⟨fun rm e cr => rfl, ?_, fun rm => rfl, fun rm doi oa cr ax an e => rfl⟩
  intro rm oa e
  rcases oa with e2 | v
  · rfl
  · rcases v with _ | d
    · rfl
    · rfl

/-- Claim C9: the species extractor returns a duplicate-free species
list that is exactly the first-seen-order deduplication of the names
matched through the fixed species table, and the evidence list mirrors
the species list entrywise as name (code) pairs. -/
theorem claim_C9_species (terms : List MeshTerm) :
    (extract_species terms).1.Nodup ∧
    (extract_species terms).1 =
      firstSeen (terms.filterMap fun t => speciesMapping t.ui) [] ∧
    List.Forall₂
      (fun nm e => ∃ c, speciesMapping c = some nm ∧ e = nm ++ " (" ++ c ++ ")")
      (extract_species terms).1 (extract_species terms).2 := by
  have h2 : (extract_species terms).1 =
      firstSeen (terms.filterMap fun t => speciesMapping t.ui) [] := by
    rw [extract_species, extract_species_aux_fst]
    simp
  refine ⟨?_, h2, extract_species_aux_forall₂ terms [] [] List.Forall₂.nil⟩
  rw [h2]
  exact firstSeen_nodup _ _

/-- Claim C10: with a resolved identifier but an empty fetched term
list, the per-paper pipeline returns the No MeSH terms found record
with NOT FOUND confidences and empty species without invoking the
classifiers, whose animal-use rule on an empty term list would instead
yield confidence low. -/
theorem claim_C10_empty_terms (ia ih : Bool) (doi cleanDoi p : String)
    (meta : Option MeshMeta) (hc : cleanDoi ≠ "") :
    classify_animal_studies_single ia ih doi cleanDoi (some p) [] meta =
      { doi := cleanDoi, pmid := some p, error := some "No MeSH terms found" } ∧
    (classify_animal_studies_single ia ih doi cleanDoi (some p) [] meta).animals_confidence
      = "NOT FOUND" ∧
    (classify_animal_studies_single ia ih doi cleanDoi (some p) [] meta).in_vivo_confidence
      = "NOT FOUND" ∧
    (classify_animal_studies_single ia ih doi cleanDoi (some p) [] meta).species = [] ∧
    (classify_animals_used ia ih []).2.1 = "low" ∧
    (classify_animals_used ia ih []).2.1 ≠
      (classify_animal_studies_single ia ih doi cleanDoi (some p) [] meta).animals_confidence := by
  have hrec : classify_animal_studies_single ia ih doi cleanDoi (some p) [] meta =
      { doi := cleanDoi, pmid := some p, error := some "No MeSH terms found" } := by
    rw [classify_animal_studies_single.eq_def, if_neg hc]
    rfl
  have hlow : (classify_animals_used ia ih []).2.1 = "low" := by
    simp [classify_animals_used, classify_animals_used_no_downgrade, scanQ2]
  refine ⟨hrec, ?_, ?_, ?_, hlow, ?_⟩
  · rw [hrec]
  · rw [hrec]
  · rw [hrec]
  · rw [hrec, hlow]
    intro h2
    exact (by decide : ("low" : String) ≠ "NOT FOUND") h2

/-- Claim C10 witness: a concrete resolved identifier with an empty term
list yields the NOT FOUND animal confidence. -/
theorem claim_C10_witness :
    ("10.1/z" : String) ≠ "" ∧
    (classify_animal_studies_single true false "10.1/z" "10.1/z" (some "123") [] none).animals_confidence
      = "NOT FOUND" :=
  ⟨by decide,
   (claim_C10_empty_terms true false "10.1/z" "10.1/z" "123" none (by decide)).2.1⟩
